import Mathlib

set_option maxRecDepth 8000

/-!
Shallow embedding of the admin login flow implemented in
src/packages/core/admin/admin/src/pages/Auth/components/Login.tsx.

The file models, from the source:
  * the error handler `onError` (lines 74-83), including an ASCII model of
    lodash `camelCase` composed with `String.toLowerCase`;
  * the success handler `onSuccess` (lines 57-72) as an ordered list of
    outbound effects (locale dispatch, token/user persistence, navigation),
    with `decodeURIComponent` modelled as a partial percent-decoder that
    validates UTF-8 (returning `none` where the JS builtin throws a URIError);
  * the request built by the mutation function (lines 48-55), whose body is
    the submitted values object serialized field by field;
  * the yup validation schema `LOGIN_SCHEMA` (lines 33-37), including an
    ASCII model of yup's email regular expression;
  * the submit path (lines 115-127): Formik validates against the schema and,
    when validation passes, calls `mutation.mutate(values)` unconditionally —
    neither Formik, nor react-query's `mutate`, nor the submit button (line
    203, which has no disabled/loading prop) guards against a submission
    being issued while a previous one is still in flight.
-/

namespace StrapiLogin

/-! ### ASCII character classes -/

def isUpperA (c : Char) : Bool := 'A' ≤ c && c ≤ 'Z'

def isLowerA (c : Char) : Bool := 'a' ≤ c && c ≤ 'z'

def isDigitA (c : Char) : Bool := '0' ≤ c && c ≤ '9'

def isWordChar (c : Char) : Bool := isUpperA c || isLowerA c || isDigitA c

/-- Lowercase a string character-wise (model of `String.prototype.toLowerCase`
restricted to ASCII, which is all this flow compares). -/
def toLowerStr (s : String) : String := String.mk (s.toList.map Char.toLower)

/-- Uppercase the first character of a word (lodash `upperFirst`). -/
def upperFirst (s : String) : String :=
  match s.toList with
  | [] => ""
  | c :: cs => String.mk (c.toUpper :: cs)

/-! ### lodash `camelCase`, modelled for ASCII input

lodash splits a string into words (dropping separator characters), lowercases
every word, and concatenates them capitalizing each word after the first.  For
ASCII input the word boundaries are: any non-alphanumeric character is a
separator; a boundary also falls between a lowercase letter and an uppercase
one, between a letter and a digit in either order, and inside an uppercase run
right before an uppercase letter that is followed by a lowercase one.  (lodash
additionally keeps ordinal suffixes such as "1st" as one word; that only moves
a boundary between kept characters, so it cannot change
`camelCase(s).toLowerCase()`, the only form the login code consumes.)
Apostrophes are removed before splitting, as lodash does. -/

def wordBreak (prev cur : Char) (next : Option Char) : Bool :=
  (isLowerA prev && isUpperA cur) ||
  (isDigitA prev && (isLowerA cur || isUpperA cur)) ||
  ((isLowerA prev || isUpperA prev) && isDigitA cur) ||
  (isUpperA prev && isUpperA cur &&
    (match next with
     | some n => isLowerA n
     | none => false))

def wordsAux (acc : List Char) : List Char → List (List Char)
  | [] => if acc = [] then [] else [acc.reverse]
  | c :: cs =>
    if isWordChar c then
      match acc with
      | [] => wordsAux [c] cs
      | p :: _ =>
        if wordBreak p c cs.head? then
          acc.reverse :: wordsAux [c] cs
        else
          wordsAux (c :: acc) cs
    else
      if acc = [] then wordsAux [] cs
      else acc.reverse :: wordsAux [] cs

def splitWords (s : String) : List String :=
  (wordsAux [] s.toList).map String.mk

def camelCase (s : String) : String :=
  let cleaned := String.mk (s.toList.filter fun c => c.toNat != 0x27 && c.toNat != 0x2019)
  match (splitWords cleaned).map toLowerStr with
  | [] => ""
  | w :: ws => w ++ String.join (ws.map upperFirst)

/-! ### The error handler (Login.tsx lines 74-83) -/

/-- The `error.message` level of the failure payload. -/
structure ApiErrorPayload where
  message : Option String
deriving Repr, DecidableEq

/-- The `data.error` level of the failure payload. -/
structure ErrorResponseBody where
  error : Option ApiErrorPayload
deriving Repr, DecidableEq

/-- The axios error: `response` is absent on a transport failure. -/
structure AxiosErr where
  response : Option ErrorResponseBody
deriving Repr, DecidableEq

/-- The optional chain `err.response?.data?.error?.message` (line 75). -/
def errMessageOf (e : AxiosErr) : Option String :=
  (e.response.bind (·.error)).bind (·.message)

/-- Observable outcome of one run of `onError`: the navigation it performs
(if any) and the user-visible error it sets (if any). -/
structure ErrorResult where
  navigation : Option String
  apiError : Option String
deriving Repr, DecidableEq

/-- Login.tsx lines 74-83: take the application-level message with the generic
fallback, compare `camelCase(message).toLowerCase()` with the sentinel
`"usernotactive"`; on a match navigate to `/auth/oops` and return without
setting an error, otherwise set the untransformed message as the api error. -/
def onError (e : AxiosErr) : ErrorResult :=
  let message := (errMessageOf e).getD "Something went wrong"
  if toLowerStr (camelCase message) = "usernotactive" then
    { navigation := some "/auth/oops", apiError := none }
  else
    { navigation := none, apiError := some message }

/-! ### `decodeURIComponent` (used unguarded at Login.tsx line 69) -/

/-- Value of one hexadecimal digit, either case (as `decodeURIComponent`
accepts both). -/
def hexVal (c : Char) : Option Nat :=
  let n := c.toNat
  if 0x30 ≤ n ∧ n ≤ 0x39 then some (n - 0x30)
  else if 0x61 ≤ n ∧ n ≤ 0x66 then some (n - 0x57)
  else if 0x41 ≤ n ∧ n ≤ 0x46 then some (n - 0x37)
  else none

/-- UTF-8 encoding of one scalar value, as a byte list. -/
def utf8Bytes (c : Char) : List Nat :=
  let n := c.toNat
  if n < 0x80 then [n]
  else if n < 0x800 then [0xC0 + n / 0x40, 0x80 + n % 0x40]
  else if n < 0x10000 then
    [0xE0 + n / 0x1000, 0x80 + (n / 0x40) % 0x40, 0x80 + n % 0x40]
  else
    [0xF0 + n / 0x40000, 0x80 + (n / 0x1000) % 0x40, 0x80 + (n / 0x40) % 0x40,
      0x80 + n % 0x40]

/-- Replace every `%XX` escape by its byte and every literal character by its
UTF-8 bytes; `none` when a `%` is not followed by two hex digits (the first
way `decodeURIComponent` throws a URIError). -/
def pctBytes : List Char → Option (List Nat)
  | [] => some []
  | '%' :: rest =>
    match rest with
    | c1 :: c2 :: rest2 =>
      match hexVal c1, hexVal c2 with
      | some h, some l => (pctBytes rest2).map fun bs => (0x10 * h + l) :: bs
      | _, _ => none
    | _ => none
  | c :: rest => (pctBytes rest).map fun bs => utf8Bytes c ++ bs

/-- Strict UTF-8 decoding of a byte list: rejects truncated sequences,
overlong encodings, surrogates and out-of-range scalars (the second way
`decodeURIComponent` throws a URIError). -/
def utf8Decode : List Nat → Option (List Char)
  | [] => some []
  | b :: bs =>
    if b < 0x80 then
      (utf8Decode bs).map fun cs => Char.ofNat b :: cs
    else if b < 0xC2 then none
    else if b < 0xE0 then
      match bs with
      | b2 :: rest =>
        if 0x80 ≤ b2 ∧ b2 < 0xC0 then
          (utf8Decode rest).map fun cs =>
            Char.ofNat ((b - 0xC0) * 0x40 + (b2 - 0x80)) :: cs
        else none
      | [] => none
    else if b < 0xF0 then
      match bs with
      | b2 :: b3 :: rest =>
        if (0x80 ≤ b2 ∧ b2 < 0xC0) ∧ (0x80 ≤ b3 ∧ b3 < 0xC0) then
          let n := (b - 0xE0) * 0x1000 + (b2 - 0x80) * 0x40 + (b3 - 0x80)
          if 0x800 ≤ n ∧ ¬ (0xD800 ≤ n ∧ n < 0xE000) then
            (utf8Decode rest).map fun cs => Char.ofNat n :: cs
          else none
        else none
      | _ => none
    else if b < 0xF5 then
      match bs with
      | b2 :: b3 :: b4 :: rest =>
        if (0x80 ≤ b2 ∧ b2 < 0xC0) ∧ (0x80 ≤ b3 ∧ b3 < 0xC0) ∧
            (0x80 ≤ b4 ∧ b4 < 0xC0) then
          let n := (b - 0xF0) * 0x40000 + (b2 - 0x80) * 0x1000 +
            (b3 - 0x80) * 0x40 + (b4 - 0x80)
          if 0x10000 ≤ n ∧ n ≤ 0x10FFFF then
            (utf8Decode rest).map fun cs => Char.ofNat n :: cs
          else none
        else none
      | _ => none
    else none

/-- Model of `decodeURIComponent`: `none` exactly where the builtin throws. -/
def percentDecode (s : String) : Option String :=
  match pctBytes s.toList with
  | none => none
  | some bs => (utf8Decode bs).map String.mk

/-! ### The success handler (Login.tsx lines 57-72) -/

/-- Modelled from the spec: the helper package's `auth.setToken` /
`auth.setUserInfo` (outside the observed sources) choose the storage
durability from the boolean they receive — `true` selects long-lived
persistent storage, `false` session-scoped storage. -/
inductive Durability
  | persistent
  | session
deriving Repr, DecidableEq

def storageTier (rememberMe : Bool) : Durability :=
  if rememberMe then Durability.persistent else Durability.session

/-- The user record of the success payload; only `preferedLanguage` (sic, as
in the source) is inspected by the flow, `id` stands for the rest of the
identity. -/
structure UserRecord where
  id : Nat
  preferedLanguage : Option String
deriving Repr, DecidableEq

/-- Outbound effects of the success handler, in program order. -/
inductive Effect
  | setLocale (lang : String)
  | setToken (token : String) (tier : Durability)
  | setUserInfo (user : UserRecord) (tier : Durability)
  | navigate (path : String)
deriving Repr, DecidableEq

/-- The value produced by the mutation function: the response `data` spread
together with the submitted `rememberMe` flag (line 54). -/
structure SuccessData where
  token : String
  user : UserRecord
  rememberMe : Bool
deriving Repr, DecidableEq

/-- Lines 61-63: `if (user.preferedLanguage) dispatch(setLocale(...))` — the
JS truthiness test, false for an absent and for an empty-string language. -/
def localeEffects (u : UserRecord) : List Effect :=
  match u.preferedLanguage with
  | some l => if l = "" then [] else [Effect.setLocale l]
  | none => []

/-- Lines 68-71: `redirectTo ? decodeURIComponent(redirectTo) : '/'` followed
by `push(...)`.  Returns the navigation effects together with a flag telling
whether `decodeURIComponent` threw (in which case `push` is never reached). -/
def resolveNav (redirectTo : Option String) : List Effect × Bool :=
  match redirectTo with
  | none => ([Effect.navigate "/"], false)
  | some s =>
    if s = "" then ([Effect.navigate "/"], false)
    else
      match percentDecode s with
      | some url => ([Effect.navigate url], false)
      | none => ([], true)

/-- Lines 61-66 in order: the conditional locale dispatch, then
`auth.setToken(token, rememberMe)`, then `auth.setUserInfo(user, rememberMe)`. -/
def sessionEffects (d : SuccessData) : List Effect :=
  localeEffects d.user ++
    [Effect.setToken d.token (storageTier d.rememberMe),
     Effect.setUserInfo d.user (storageTier d.rememberMe)]

/-- Lines 57-72: the whole success handler.  First component: the effects
performed, in order; second component: whether the run ended in a thrown
URIError (after the persistence writes, before any navigation). -/
def onSuccess (d : SuccessData) (redirectTo : Option String) :
    List Effect × Bool :=
  (sessionEffects d ++ (resolveNav redirectTo).1, (resolveNav redirectTo).2)

/-- Locale languages dispatched by a run. -/
def localeTargets (l : List Effect) : List String :=
  l.filterMap fun e =>
    match e with
    | Effect.setLocale s => some s
    | _ => none

/-- Navigation paths pushed by a run. -/
def navTargets (l : List Effect) : List String :=
  l.filterMap fun e =>
    match e with
    | Effect.navigate p => some p
    | _ => none

/-- Token writes performed by a run, with their durability tier. -/
def tokenWrites (l : List Effect) : List (String × Durability) :=
  l.filterMap fun e =>
    match e with
    | Effect.setToken t d => some (t, d)
    | _ => none

/-- User-record writes performed by a run, with their durability tier. -/
def userWrites (l : List Effect) : List (UserRecord × Durability) :=
  l.filterMap fun e =>
    match e with
    | Effect.setUserInfo u d => some (u, d)
    | _ => none

/-! ### The request (Login.tsx lines 48-55, 115-127) -/

/-- The Formik values object (lines 117-121). -/
structure Credentials where
  email : String
  password : String
  rememberMe : Bool
deriving Repr, DecidableEq

/-- The Formik `initialValues` (lines 117-121). -/
def initialValues : Credentials :=
  { email := "", password := "", rememberMe := false }

/-- A network request: URL and the serialized JSON body as name/value
fields. -/
structure WireRequest where
  url : String
  body : List (String × String)
deriving Repr, DecidableEq

/-- Line 52: `post('/admin/login', body)` serializes the whole `body` object —
the Formik values, i.e. the fields `email`, `password` and `rememberMe`. -/
def serializeBody (v : Credentials) : List (String × String) :=
  [("email", v.email), ("password", v.password),
   ("rememberMe", if v.rememberMe then "true" else "false")]

def loginRequest (v : Credentials) : WireRequest :=
  { url := "/admin/login", body := serializeBody v }

/-- The success payload `data` of the response body. -/
structure LoginResponseData where
  token : String
  user : UserRecord
deriving Repr, DecidableEq

/-- Line 54: `return { ...data, rememberMe: body.rememberMe }`. -/
def mutationResult (body : Credentials) (resp : LoginResponseData) :
    SuccessData :=
  { token := resp.token, user := resp.user, rememberMe := body.rememberMe }

/-! ### The validator (Login.tsx lines 33-37)

`LOGIN_SCHEMA` requires `email` to be non-empty and to match yup's email
regular expression, `password` to be non-empty, and leaves `rememberMe` a
nullable boolean.  Yup's regular expression is modelled below for ASCII
input: the local part is a dot-atom of atext characters or a quoted string,
the domain is a label (alphanumeric at both ends, interior may also use
hyphen, dot, underscore and tilde) followed by a dot and a top-level part
that starts and ends with a letter.  The whole comparison is
case-insensitive.  (The folding-whitespace CRLF forms that yup's quoted
strings admit are restricted here to CRLF followed by a space or tab.) -/

def isAlnumLow (c : Char) : Bool := isLowerA c || isDigitA c

def isAtextSpecial (c : Char) : Bool :=
  let n := c.toNat
  n == 0x21 || (0x23 ≤ n && n ≤ 0x27) || n == 0x2a || n == 0x2b || n == 0x2d ||
  n == 0x2f || n == 0x3d || n == 0x3f || (0x5e ≤ n && n ≤ 0x60) ||
  (0x7b ≤ n && n ≤ 0x7e)

def isAtextA (c : Char) : Bool := isAlnumLow c || isAtextSpecial c

def splitDots : List Char → List (List Char)
  | [] => [[]]
  | c :: cs =>
    if c = '.' then [] :: splitDots cs
    else
      match splitDots cs with
      | seg :: rest => (c :: seg) :: rest
      | [] => [[c]]

/-- Dot-atom local part: non-empty atext runs separated by single dots. -/
def isDotAtom (cs : List Char) : Bool :=
  (splitDots cs).all fun seg => !seg.isEmpty && seg.all isAtextA

def isQtextA (c : Char) : Bool :=
  let n := c.toNat
  (1 ≤ n && n ≤ 8) || n == 0x0b || n == 0x0c || (0x0e ≤ n && n ≤ 0x1f) ||
  n == 0x7f || n == 0x21 || (0x23 ≤ n && n ≤ 0x5b) || (0x5d ≤ n && n ≤ 0x7e)

def isEscapableA (c : Char) : Bool :=
  let n := c.toNat
  (1 ≤ n && n ≤ 9) || n == 0x0b || n == 0x0c || (0x0d ≤ n && n ≤ 0x7f)

def qcontentOk : List Char → Bool
  | [] => true
  | c :: rest =>
    if c.toNat = 0x5c then
      match rest with
      | c2 :: rest2 => isEscapableA c2 && qcontentOk rest2
      | [] => false
    else if c.toNat = 0x20 ∨ c.toNat = 0x09 then qcontentOk rest
    else if c.toNat = 0x0d then
      match rest with
      | c2 :: c3 :: rest2 =>
        c2.toNat == 0x0a && (c3.toNat == 0x20 || c3.toNat == 0x09) &&
          qcontentOk (c3 :: rest2)
      | _ => false
    else isQtextA c && qcontentOk rest

/-- Quoted-string local part: quote, quoted content, quote. -/
def isQuotedLocal : List Char → Bool
  | c :: rest =>
    c.toNat == 0x22 &&
      (match rest.getLast? with
       | some e => e.toNat == 0x22 && qcontentOk rest.dropLast
       | none => false)
  | [] => false

def isLocalPart (cs : List Char) : Bool := isDotAtom cs || isQuotedLocal cs

def isLabelChar (c : Char) : Bool :=
  isAlnumLow c || c = '-' || c = '.' || c = '_' || c = '~'

def lastSat (p : Char → Bool) (cs : List Char) : Bool :=
  match cs.getLast? with
  | some e => p e
  | none => false

/-- A domain label: alphanumeric at both ends, label characters inside. -/
def isLabel : List Char → Bool
  | [] => false
  | c :: cs =>
    isAlnumLow c && (c :: cs).all isLabelChar && lastSat isAlnumLow (c :: cs)

/-- The final domain part: letters at both ends, label characters inside. -/
def isTld : List Char → Bool
  | [] => false
  | c :: cs =>
    isLowerA c && (c :: cs).all isLabelChar && lastSat isLowerA (c :: cs)

/-- The domain: some dot splits it into a label part and a final part.
(Yup's `(label ".")+ tld` collapses to this because a label may itself
contain dots, so consecutive groups merge into one label.) -/
def isDomain (cs : List Char) : Bool :=
  (List.range cs.length).any fun i =>
    (cs[i]? == some '.') && isLabel (cs.take i) && isTld (cs.drop (i + 1))

/-- Split at the last `@`: the domain may not contain `@`, so yup's anchored
`local@domain` match puts the split there. -/
def splitAtLastAt (cs : List Char) : Option (List Char × List Char) :=
  match (cs.reverse.span fun c => c.toNat != 0x40) with
  | (dRev, rest) =>
    match rest with
    | a :: lRev => if a.toNat = 0x40 then some (lRev.reverse, dRev.reverse) else none
    | [] => none

/-- ASCII model of yup's email regular expression (case-insensitive). -/
def isEmail (s : String) : Bool :=
  match splitAtLastAt (toLowerStr s).toList with
  | some (l, d) => isLocalPart l && isDomain d
  | none => false

/-- Modelled from the spec: the translatable error keys the schema attaches
(the helper package's `translatedErrors` constants are outside the observed
sources). -/
def requiredErrorKey : String := "components.Input.error.validation.required"

def emailErrorKey : String := "components.Input.error.validation.email"

/-- The validation outcome of `LOGIN_SCHEMA` for a values object: a map from
field name to translatable error key, empty when the values are accepted. -/
def validate (v : Credentials) : List (String × String) :=
  (if v.email = "" then [("email", requiredErrorKey)]
   else if isEmail v.email then [] else [("email", emailErrorKey)]) ++
  (if v.password = "" then [("password", requiredErrorKey)] else [])

/-! ### The submit path (Login.tsx lines 115-127) -/

/-- Observable submission state: how many submissions are currently in
flight, how many requests have been issued in total, and the current field
errors. -/
structure ControllerState where
  inFlight : Nat
  requestsIssued : Nat
  fieldErrors : List (String × String)
deriving Repr, DecidableEq

def initialState : ControllerState :=
  { inFlight := 0, requestsIssued := 0, fieldErrors := [] }

/-- One submit event: Formik validates the values against `LOGIN_SCHEMA`;
on failure it records the field errors and does not call `onSubmit`; on
success `onSubmit` runs `mutation.mutate(values)`, which always issues a new
network request — nothing in the source consults the in-flight state. -/
def submitStep (s : ControllerState) (v : Credentials) : ControllerState :=
  match validate v with
  | [] =>
    { s with inFlight := s.inFlight + 1, requestsIssued := s.requestsIssued + 1 }
  | errs => { s with fieldErrors := errs }

/-! ### The persistence pair (Login.tsx lines 65-66) -/

/-- The browser storage written by the auth helpers. -/
structure Storage where
  token : Option (String × Durability)
  user : Option (UserRecord × Durability)
deriving Repr, DecidableEq

def emptyStorage : Storage := { token := none, user := none }

/-- Lines 65-66 run `auth.setToken(token, rememberMe)` then
`auth.setUserInfo(user, rememberMe)` as two ordered storage writes with no
transaction, rollback or error handling around them.  Modelled from the
spec: a storage write may fail mid-persist (the spec's own failure model for
this pair); a failing write throws, so a failure of the first write aborts
before the second runs, and a failure of the second leaves the first's
effect in place. -/
def persistPair (tokenWriteFails userWriteFails : Bool) (token : String)
    (u : UserRecord) (rememberMe : Bool) (s : Storage) : Storage :=
  if tokenWriteFails then s
  else
    let s1 := { s with token := some (token, storageTier rememberMe) }
    if userWriteFails then s1
    else { s1 with user := some (u, storageTier rememberMe) }

/-! ### Concrete values used by witnesses and counterexamples -/

def demoCredentials : Credentials :=
  { email := "kai@doe.com", password := "secret1", rememberMe := false }

def demoUser : UserRecord := { id := 3, preferedLanguage := some "fr" }

def demoSuccess : SuccessData :=
  { token := "tok", user := demoUser, rememberMe := true }

def emptyLangData : SuccessData :=
  { token := "tok", user := { id := 1, preferedLanguage := some "" },
    rememberMe := true }

/-! ### Helper lemmas about the effect extractors -/

theorem localeTargets_append (a b : List Effect) :
    localeTargets (a ++ b) = localeTargets a ++ localeTargets b := by
  simp [localeTargets]

theorem navTargets_append (a b : List Effect) :
    navTargets (a ++ b) = navTargets a ++ navTargets b := by
  simp [navTargets]

theorem tokenWrites_append (a b : List Effect) :
    tokenWrites (a ++ b) = tokenWrites a ++ tokenWrites b := by
  simp [tokenWrites]

theorem userWrites_append (a b : List Effect) :
    userWrites (a ++ b) = userWrites a ++ userWrites b := by
  simp [userWrites]

theorem localeTargets_resolveNav (q : Option String) :
    localeTargets (resolveNav q).1 = [] := by
  rcases q with _ | s
  · rfl
  · by_cases h : s = ""
    · simp [resolveNav, h, localeTargets]
    · rcases hp : percentDecode s with _ | u <;>
        simp [resolveNav, h, hp, localeTargets]

theorem tokenWrites_resolveNav (q : Option String) :
    tokenWrites (resolveNav q).1 = [] := by
  rcases q with _ | s
  · rfl
  · by_cases h : s = ""
    · simp [resolveNav, h, tokenWrites]
    · rcases hp : percentDecode s with _ | u <;>
        simp [resolveNav, h, hp, tokenWrites]

theorem userWrites_resolveNav (q : Option String) :
    userWrites (resolveNav q).1 = [] := by
  rcases q with _ | s
  · rfl
  · by_cases h : s = ""
    · simp [resolveNav, h, userWrites]
    · rcases hp : percentDecode s with _ | u <;>
        simp [resolveNav, h, hp, userWrites]

theorem navTargets_localeEffects (u : UserRecord) :
    navTargets (localeEffects u) = [] := by
  rcases hp : u.preferedLanguage with _ | l
  · simp [localeEffects, hp, navTargets]
  · by_cases hl : l = "" <;> simp [localeEffects, hp, hl, navTargets]

theorem tokenWrites_localeEffects (u : UserRecord) :
    tokenWrites (localeEffects u) = [] := by
  rcases hp : u.preferedLanguage with _ | l
  · simp [localeEffects, hp, tokenWrites]
  · by_cases hl : l = "" <;> simp [localeEffects, hp, hl, tokenWrites]

theorem userWrites_localeEffects (u : UserRecord) :
    userWrites (localeEffects u) = [] := by
  rcases hp : u.preferedLanguage with _ | l
  · simp [localeEffects, hp, userWrites]
  · by_cases hl : l = "" <;> simp [localeEffects, hp, hl, userWrites]

theorem localeEffects_of_some (u : UserRecord) (l : String)
    (hl : u.preferedLanguage = some l) (hne : l ≠ "") :
    localeEffects u = [Effect.setLocale l] := by
  simp [localeEffects, hl, hne]

theorem localeTargets_sessionEffects (d : SuccessData) :
    localeTargets (sessionEffects d) = localeTargets (localeEffects d.user) := by
  unfold sessionEffects
  rw [localeTargets_append]
  simp [localeTargets]

theorem navTargets_sessionEffects (d : SuccessData) :
    navTargets (sessionEffects d) = [] := by
  unfold sessionEffects
  rw [navTargets_append, navTargets_localeEffects]
  simp [navTargets]

theorem tokenWrites_sessionEffects (d : SuccessData) :
    tokenWrites (sessionEffects d) = [(d.token, storageTier d.rememberMe)] := by
  unfold sessionEffects
  rw [tokenWrites_append, tokenWrites_localeEffects]
  simp [tokenWrites]

theorem userWrites_sessionEffects (d : SuccessData) :
    userWrites (sessionEffects d) = [(d.user, storageTier d.rememberMe)] := by
  unfold sessionEffects
  rw [userWrites_append, userWrites_localeEffects]
  simp [userWrites]

/-! ### The claims -/

/-- C1: for every failed submission carrying an application-level error
message, if camel-casing then lowercasing the message yields the sentinel
"usernotactive" the handler navigates to the account-inactive screen and sets
no user-visible error string; for every other message it sets the
untransformed message as the user-visible error and performs no navigation. -/
theorem sentinel_classifies_error (e : AxiosErr) (msg : String)
    (h : errMessageOf e = some msg) :
    (toLowerStr (camelCase msg) = "usernotactive" →
      onError e = { navigation := some "/auth/oops", apiError := none }) ∧
    (toLowerStr (camelCase msg) ≠ "usernotactive" →
      onError e = { navigation := none, apiError := some msg }) := by
  unfold onError
  rw [h]
  constructor
  · intro hs
    simp [hs]
  · intro hs
    simp [hs]

theorem sentinel_classifies_error_witness :
    onError { response := some { error := some { message := some "UserNotActive" } } } =
      { navigation := some "/auth/oops", apiError := none } ∧
    onError { response := some { error := some { message := some "Invalid credentials" } } } =
      { navigation := none, apiError := some "Invalid credentials" } :=
  ⟨(sentinel_classifies_error
      { response := some { error := some { message := some "UserNotActive" } } }
      "UserNotActive" rfl).1 (by decide),
   (sentinel_classifies_error
      { response := some { error := some { message := some "Invalid credentials" } } }
      "Invalid credentials" rfl).2 (by decide)⟩

/-- C2 counterexample: two consecutive submit events with valid credentials —
the second arrives while the first submission is still in flight, yet it
issues a second network request instead of being a no-op. -/
theorem second_submit_issues_request_cex :
    (submitStep initialState demoCredentials).inFlight = 1 ∧
    (submitStep initialState demoCredentials).requestsIssued = 1 ∧
    (submitStep (submitStep initialState demoCredentials)
      demoCredentials).requestsIssued = 2 := by
  decide

/-- C2 amended: every submit event whose values pass validation issues a new
network request, regardless of how many submissions are already in flight —
the source contains no at-most-one-in-flight guard, so concurrent requests
are possible. -/
theorem submit_always_issues_request (s : ControllerState) (v : Credentials)
    (h : validate v = []) :
    (submitStep s v).requestsIssued = s.requestsIssued + 1 ∧
    (submitStep s v).inFlight = s.inFlight + 1 := by
  simp [submitStep, h]

theorem submit_always_issues_request_witness :
    (submitStep { inFlight := 1, requestsIssued := 1, fieldErrors := [] }
      demoCredentials).requestsIssued = 1 + 1 ∧
    (submitStep { inFlight := 1, requestsIssued := 1, fieldErrors := [] }
      demoCredentials).inFlight = 1 + 1 :=
  submit_always_issues_request
    { inFlight := 1, requestsIssued := 1, fieldErrors := [] } demoCredentials
    (by decide)

/-- C3 counterexample: the serialized request body of a submission is not
exactly { email, password } — it also carries the rememberMe field. -/
theorem wire_body_contains_flag_cex :
    (loginRequest demoCredentials).body.map Prod.fst ≠ ["email", "password"] ∧
    "rememberMe" ∈ (loginRequest demoCredentials).body.map Prod.fst := by
  decide

/-- C3 amended: the network request issued on submission carries the whole
submitted values object { email, password, rememberMe }: the rememberMe flag
is sent over the wire, and the copy the mutation keeps locally (the one that
governs persistence) equals the submitted flag. -/
theorem wire_body_is_full_values (v : Credentials) (r : LoginResponseData) :
    (loginRequest v).url = "/admin/login" ∧
    (loginRequest v).body =
      [("email", v.email), ("password", v.password),
       ("rememberMe", if v.rememberMe then "true" else "false")] ∧
    (mutationResult v r).rememberMe = v.rememberMe :=
  ⟨rfl, rfl, rfl⟩

/-- C4 counterexample: a successful response whose user has preferedLanguage
present but equal to the empty string emits no locale-change effect, so
presence alone does not trigger the locale effect. -/
theorem locale_effect_needs_nonempty_cex :
    emptyLangData.user.preferedLanguage.isSome = true ∧
    localeTargets (onSuccess emptyLangData none).1 = [] := by
  decide

/-- C4 amended: for every successful response { token, user }: if
user.preferedLanguage is present and non-empty, a locale-change effect
carrying that language is emitted; token and user are both persisted under
the durability tier selected by the submitted rememberMe flag, with true
selecting long-lived storage and false session-scoped storage. -/
theorem session_establisher_effects (d : SuccessData) (q : Option String) :
    (∀ l, d.user.preferedLanguage = some l → l ≠ "" →
      localeTargets (onSuccess d q).1 = [l]) ∧
    tokenWrites (onSuccess d q).1 = [(d.token, storageTier d.rememberMe)] ∧
    userWrites (onSuccess d q).1 = [(d.user, storageTier d.rememberMe)] ∧
    storageTier true = Durability.persistent ∧
    storageTier false = Durability.session := by
  refine ⟨?_, ?_, ?_, rfl, rfl⟩
  · intro l hl hne
    show localeTargets (sessionEffects d ++ (resolveNav q).1) = [l]
    rw [localeTargets_append, localeTargets_resolveNav,
      localeTargets_sessionEffects, localeEffects_of_some d.user l hl hne]
    simp [localeTargets]
  · show tokenWrites (sessionEffects d ++ (resolveNav q).1) = _
    rw [tokenWrites_append, tokenWrites_resolveNav, tokenWrites_sessionEffects]
    simp
  · show userWrites (sessionEffects d ++ (resolveNav q).1) = _
    rw [userWrites_append, userWrites_resolveNav, userWrites_sessionEffects]
    simp

theorem session_establisher_effects_witness :
    localeTargets (onSuccess demoSuccess none).1 = ["fr"] ∧
    tokenWrites (onSuccess demoSuccess none).1 =
      [("tok", storageTier true)] ∧
    userWrites (onSuccess demoSuccess none).1 =
      [(demoUser, storageTier true)] :=
  ⟨(session_establisher_effects demoSuccess none).1 "fr" rfl (by decide),
   (session_establisher_effects demoSuccess none).2.1,
   (session_establisher_effects demoSuccess none).2.2.1⟩

/-- C5: for every successful login, the navigation performed targets the
URL-decoded value of the redirectTo query parameter when that parameter is
present, non-empty and well-formed, and the root path "/" when the parameter
is absent or empty. -/
theorem redirect_resolution (d : SuccessData) (q : Option String) :
    (q = none → navTargets (onSuccess d q).1 = ["/"]) ∧
    (q = some "" → navTargets (onSuccess d q).1 = ["/"]) ∧
    (∀ s u, q = some s → s ≠ "" → percentDecode s = some u →
      navTargets (onSuccess d q).1 = [u]) := by
  refine ⟨?_, ?_, ?_⟩
  · intro hq
    subst hq
    show navTargets (sessionEffects d ++ (resolveNav none).1) = ["/"]
    rw [navTargets_append, navTargets_sessionEffects]
    rfl
  · intro hq
    subst hq
    show navTargets (sessionEffects d ++ (resolveNav (some "")).1) = ["/"]
    rw [navTargets_append, navTargets_sessionEffects]
    rfl
  · intro s u hq hs hp
    subst hq
    show navTargets (sessionEffects d ++ (resolveNav (some s)).1) = [u]
    rw [navTargets_append, navTargets_sessionEffects]
    simp [resolveNav, hs, hp, navTargets]

theorem redirect_resolution_witness :
    navTargets (onSuccess demoSuccess (some "%2Fsettings")).1 = ["/settings"] ∧
    navTargets (onSuccess demoSuccess none).1 = ["/"] :=
  ⟨(redirect_resolution demoSuccess (some "%2Fsettings")).2.2 "%2Fsettings"
      "/settings" rfl (by decide) (by decide),
   (redirect_resolution demoSuccess none).1 rfl⟩

/-- C6: the schema accepts a credential draft exactly when the email is
non-empty and syntactically a valid email address and the password is
non-empty (rememberMe plays no part and its initial value is false); when the
email is syntactically invalid the validator rejects with a field-level error
keyed on email and the submit step issues no network request. -/
theorem validator_gates_submission (v : Credentials) (s : ControllerState) :
    (validate v = [] ↔
      (v.email ≠ "" ∧ isEmail v.email = true ∧ v.password ≠ "")) ∧
    initialValues.rememberMe = false ∧
    (isEmail v.email = false →
      (∃ k, ("email", k) ∈ validate v) ∧
      (submitStep s v).requestsIssued = s.requestsIssued ∧
      (submitStep s v).inFlight = s.inFlight) := by
  refine ⟨?_, rfl, ?_⟩
  · by_cases he : v.email = "" <;> by_cases hp : v.password = "" <;>
      by_cases hm : isEmail v.email = true <;>
      simp [validate, he, hp, hm]
  · intro hm
    have hv : validate v =
        ("email", if v.email = "" then requiredErrorKey else emailErrorKey) ::
          (if v.password = "" then [("password", requiredErrorKey)] else []) := by
      by_cases he : v.email = "" <;> simp [validate, he, hm]
    refine ⟨⟨if v.email = "" then requiredErrorKey else emailErrorKey, ?_⟩, ?_, ?_⟩
    · rw [hv]
      exact List.mem_cons_self _ _
    · simp [submitStep, hv]
    · simp [submitStep, hv]

theorem validator_gates_submission_witness :
    (∃ k, ("email", k) ∈
      validate { email := "not-an-email", password := "pw", rememberMe := false }) ∧
    (submitStep initialState
      { email := "not-an-email", password := "pw", rememberMe := false }).requestsIssued =
      initialState.requestsIssued ∧
    (submitStep initialState
      { email := "not-an-email", password := "pw", rememberMe := false }).inFlight =
      initialState.inFlight :=
  (validator_gates_submission
    { email := "not-an-email", password := "pw", rememberMe := false }
    initialState).2.2 (by decide)

/-- C7 counterexample: with the token write succeeding and the user-record
write failing, the flow completes leaving a persisted token with no matching
user record — neither "both persisted" nor "neither persisted" holds. -/
theorem persist_not_atomic_cex :
    ¬ (((persistPair false true "tok" demoUser true emptyStorage).token ≠ none ∧
        (persistPair false true "tok" demoUser true emptyStorage).user ≠ none) ∨
       ((persistPair false true "tok" demoUser true emptyStorage).token = none ∧
        (persistPair false true "tok" demoUser true emptyStorage).user = none)) := by
  decide

/-- C7 amended: the two persistence writes are ordered and unprotected: if
the token write fails nothing is persisted; if both writes succeed both
records are persisted under the selected tier; but if the user-record write
fails after the token write succeeded, the token remains persisted without a
matching user record. -/
theorem persist_pair_outcomes (tf uf : Bool) (tok : String) (u : UserRecord)
    (rm : Bool) :
    (tf = true → persistPair tf uf tok u rm emptyStorage = emptyStorage) ∧
    (tf = false → uf = false →
      (persistPair tf uf tok u rm emptyStorage).token =
        some (tok, storageTier rm) ∧
      (persistPair tf uf tok u rm emptyStorage).user =
        some (u, storageTier rm)) ∧
    (tf = false → uf = true →
      (persistPair tf uf tok u rm emptyStorage).token =
        some (tok, storageTier rm) ∧
      (persistPair tf uf tok u rm emptyStorage).user = none) := by
  cases tf <;> cases uf <;> simp [persistPair, emptyStorage]

theorem persist_pair_outcomes_witness :
    ((persistPair false true "tok" demoUser true emptyStorage).token =
        some ("tok", storageTier true) ∧
      (persistPair false true "tok" demoUser true emptyStorage).user = none) ∧
    persistPair true false "tok" demoUser true emptyStorage = emptyStorage :=
  ⟨(persist_pair_outcomes false true "tok" demoUser true).2.2 rfl rfl,
   (persist_pair_outcomes true false "tok" demoUser true).1 rfl⟩

/-- C8: when the failure response carries no application-level message (a
transport error with no response, or a response with no error payload), the
classifier operates on the generic fallback and the user-visible error
becomes "Something went wrong", with no navigation. -/
theorem fallback_message_on_missing_payload (e : AxiosErr)
    (h : errMessageOf e = none) :
    onError e =
      { navigation := none, apiError := some "Something went wrong" } := by
  unfold onError
  rw [h]
  decide

theorem fallback_message_on_missing_payload_witness :
    onError { response := none } =
      { navigation := none, apiError := some "Something went wrong" } :=
  fallback_message_on_missing_payload { response := none } rfl

/-- C9: on a successful login whose redirectTo query value is the malformed
percent-encoding "%", redirect resolution throws (decodeURIComponent is
unguarded) instead of falling back to the root path, so no navigation is
performed. -/
theorem malformed_redirect_throws :
    percentDecode "%" = none ∧
    (onSuccess demoSuccess (some "%")).2 = true ∧
    navTargets (onSuccess demoSuccess (some "%")).1 = [] := by
  decide

/-- C10: a successful response whose user.preferedLanguage is the empty
string emits no locale-change effect — presence is decided by truthiness, so
an empty-string language is treated the same as an absent one. -/
theorem empty_language_emits_no_locale (d : SuccessData) (q : Option String)
    (h : d.user.preferedLanguage = some "") :
    localeTargets (onSuccess d q).1 = [] ∧
    localeTargets
      (onSuccess { d with user := { d.user with preferedLanguage := none } }
        q).1 = [] := by
  have h1 : localeEffects d.user = [] := by
    simp [localeEffects, h]
  have h2 : localeEffects { d.user with preferedLanguage := none } = [] := by
    simp [localeEffects]
  constructor
  · show localeTargets (sessionEffects d ++ (resolveNav q).1) = []
    rw [localeTargets_append, localeTargets_resolveNav,
      localeTargets_sessionEffects, h1]
    rfl
  · show localeTargets
        (sessionEffects { d with user := { d.user with preferedLanguage := none } } ++
          (resolveNav q).1) = []
    rw [localeTargets_append, localeTargets_resolveNav,
      localeTargets_sessionEffects]
    rw [show ({ d with user := { d.user with preferedLanguage := none } } :
        SuccessData).user = { d.user with preferedLanguage := none } from rfl, h2]
    rfl

theorem empty_language_emits_no_locale_witness :
    localeTargets (onSuccess emptyLangData none).1 = [] ∧
    localeTargets
      (onSuccess
        { emptyLangData with
          user := { emptyLangData.user with preferedLanguage := none } }
        none).1 = [] :=
  empty_language_emits_no_locale emptyLangData none rfl

end StrapiLogin
